import Mathlib

/-!
Shallow embedding of `src/www/android_iab.js` (the Android In-App-Billing
Cordova facade) and proofs about its observable behaviour.

Modelling choices:

* JavaScript values that can reach the facade's argument positions are
  modelled by `JSVal` (undefined, null, booleans, integers, strings and
  arrays).  Floating point NaN is not needed by any code path modelled here.
* The observable actions of a call — `console.log` output, synchronous
  invocation of the caller's failure/success callback, and the
  `cordova.exec` bridge call — are modelled as a list of `Effect`s emitted
  in program order.  Callbacks are identified by natural numbers so that
  "passed through unchanged" is expressible.
* The runtime replacement `this.log = function () {}` performed by `init`
  is modelled by the boolean field `logEnabled` of the instance state
  `IABState`; `this.options.showLog` is the field `showLogOpt`.
* `JSON.stringify` is modelled by `JSVal.stringify` for the values that the
  code actually stringifies (arrays of primitive values and nested arrays);
  string escaping covers quote and backslash.
* `getProductDetails` reads `productIds.length` without guarding against
  `undefined`, which would throw a TypeError in JavaScript; it therefore
  returns `Except String (List Effect)`, with `.error` marking a thrown
  exception.  `init` guards all its accesses, so it is total.
-/

namespace InAppBilling

/-- JavaScript values reaching the facade's argument positions. -/
inductive JSVal where
  | vundefined : JSVal
  | vnull : JSVal
  | vbool : Bool → JSVal
  | vnum : Int → JSVal
  | vstr : String → JSVal
  | varr : List JSVal → JSVal


/-- JavaScript truthiness of a `JSVal` (`Boolean(v)`). -/
def JSVal.truthy : JSVal → Bool
  | .vundefined => false
  | .vnull => false
  | .vbool b => b
  | .vnum n => !(n == 0)
  | .vstr s => !(s == "")
  | .varr _ => true

/-- JavaScript `typeof v === "string"`. -/
def JSVal.isString : JSVal → Bool
  | .vstr _ => true
  | _ => false

/-- JavaScript `a || b`: `a` when truthy, else `b`. -/
def jsOr (a b : JSVal) : JSVal := if a.truthy then a else b

/-- JSON escaping of one character (quote and backslash). -/
def escapeChar (c : Char) : List Char :=
  if c == '"' then ['\\', '"']
  else if c == '\\' then ['\\', '\\']
  else [c]

/-- JSON string escaping for the characters the model covers. -/
def escapeJson (s : String) : String :=
  String.mk (s.data.foldr (fun c acc => escapeChar c ++ acc) [])

mutual

/-- Model of `JSON.stringify` on the values appearing in this code's paths.
`vundefined` renders as `null`, matching `JSON.stringify` inside an array. -/
def JSVal.stringify : JSVal → String
  | .vundefined => "null"
  | .vnull => "null"
  | .vbool true => "true"
  | .vbool false => "false"
  | .vnum n => toString n
  | .vstr s => "\"" ++ escapeJson s ++ "\""
  | .varr xs => "[" ++ stringifyElems xs ++ "]"

/-- Comma-separated serialization of array elements. -/
def stringifyElems : List JSVal → String
  | [] => ""
  | [x] => JSVal.stringify x
  | x :: y :: xs => JSVal.stringify x ++ "," ++ stringifyElems (y :: xs)

end

/-- Observable effects of one facade call, in program order. -/
inductive Effect where
  | consoleLog : String → Effect
  | invokeSuccess : Nat → Effect
  | invokeFail : Nat → String → Effect
  | exec : Nat → Nat → String → String → List JSVal → Effect


/-- True exactly on bridge-call effects. -/
def Effect.isExec : Effect → Bool
  | .exec _ _ _ _ _ => true
  | _ => false

/-- True exactly on synchronous callback invocations by the facade. -/
def Effect.isCallbackCall : Effect → Bool
  | .invokeSuccess _ => true
  | .invokeFail _ _ => true
  | _ => false

/-- The bridge calls issued in a trace. -/
def execsOf (tr : List Effect) : List Effect := tr.filter Effect.isExec

/-- The synchronous callback invocations in a trace. -/
def callbacksOf (tr : List Effect) : List Effect := tr.filter Effect.isCallbackCall

/-- Per-instance state: whether `this.log` is still the real logger, and the
stored `this.options.showLog`. -/
structure IABState where
  logEnabled : Bool
  showLogOpt : JSVal


/-- State made by the constructor: `this.options = {}`, prototype `log`. -/
def initialState : IABState := { logEnabled := true, showLogOpt := .vundefined }

/-- Model of `InAppBilling.prototype.log`: prefixes the message. -/
def log (msg : String) : Effect := .consoleLog ("InAppBilling[js]: " ++ msg)

/-- A `this.log(msg)` call: emits output iff `log` was not replaced. -/
def emitLog (logEnabled : Bool) (msg : String) : List Effect :=
  if logEnabled then [log msg] else []

/-- The `options` argument of `init`: absent (undefined), null, or an object
whose `showLog` property is the given value (`vundefined` when not set). -/
inductive OptionsArg where
  | undefined : OptionsArg
  | null : OptionsArg
  | obj : JSVal → OptionsArg


/-- Model of `options || (options = {})`: undefined and null are falsy and
are replaced by the empty object; an object is truthy and kept. -/
def optDefault : OptionsArg → OptionsArg
  | .undefined => .obj .vundefined
  | .null => .obj .vundefined
  | .obj v => .obj v

/-- Property read `options.showLog` (only reached after `optDefault`). -/
def showLogOf : OptionsArg → JSVal
  | .obj v => v
  | _ => .vundefined

/-- The `productIds` argument: absent (undefined), a bare string, or an
array of arbitrary values. -/
inductive ProductIdsArg where
  | undefined : ProductIdsArg
  | str : String → ProductIdsArg
  | arr : List JSVal → ProductIdsArg


/-- The `typeof productIds !== "undefined"` guard plus the string-to-array
coercion `productIds = [productIds]` shared by `init`. -/
def normalizeIds : ProductIdsArg → Option (List JSVal)
  | .undefined => none
  | .str s => some [.vstr s]
  | .arr xs => some xs

/-- Effects of `init` from line 110 on, after `this.log` was possibly
replaced (`logEnabled` is the post-replacement state): the `setup ok` log,
the optional `productIds` validation, and either the synchronous failure or
the `init` bridge call. -/
def initEffects (logEnabled : Bool) (success fail : Nat)
    (ids : Option (List JSVal)) : List Effect :=
  let setupLog := emitLog logEnabled "setup ok"
  match ids with
  | none =>
      setupLog ++ [.exec success fail "InAppBillingPlugin" "init" []]
  | some ids =>
      match ids with
      | [] =>
          setupLog ++ [.exec success fail "InAppBillingPlugin" "init" []]
      | x :: _ =>
          if x.isString then
            setupLog
              ++ emitLog logEnabled ("load " ++ JSVal.stringify (.varr ids))
              ++ [.exec success fail "InAppBillingPlugin" "init" [.varr ids]]
          else
            let msg := "invalid productIds: " ++ JSVal.stringify (.varr ids)
            setupLog ++ emitLog logEnabled msg ++ [.invokeFail fail msg]

/-- Model of `InAppBilling.prototype.init` (lines 99-136).  Computes
`showLog: options.showLog || true`, replaces `log` by a no-op when that
value is falsy (lines 100-108, before any output), then emits
`initEffects`. -/
def init (st : IABState) (options : OptionsArg) (success fail : Nat)
    (productIds : ProductIdsArg) : IABState × List Effect :=
  let opts := optDefault options
  let showLog := jsOr (showLogOf opts) (.vbool true)
  let logEnabled := if showLog.truthy then st.logEnabled else false
  ({ logEnabled := logEnabled, showLogOpt := showLog },
    initEffects logEnabled success fail (normalizeIds productIds))

/-- Model of `InAppBilling.prototype.getPurchases` (lines 152-155). -/
def getPurchases (st : IABState) (success fail : Nat) : List Effect :=
  emitLog st.logEnabled "getPurchases called!"
    ++ [.exec success fail "InAppBillingPlugin" "getPurchases" [.vstr "null"]]

/-- Model of `InAppBilling.prototype.buy` (lines 179-182). -/
def buy (st : IABState) (success fail : Nat) (productId : JSVal) : List Effect :=
  emitLog st.logEnabled "buy called!"
    ++ [.exec success fail "InAppBillingPlugin" "buy" [productId]]

/-- Model of `InAppBilling.prototype.subscribe` (lines 193-196). -/
def subscribe (st : IABState) (success fail : Nat) (productId : JSVal) : List Effect :=
  emitLog st.logEnabled "subscribe called!"
    ++ [.exec success fail "InAppBillingPlugin" "subscribe" [productId]]

/-- Model of `InAppBilling.prototype.consumePurchase` (lines 212-215). -/
def consumePurchase (st : IABState) (success fail : Nat) (productId : JSVal) : List Effect :=
  emitLog st.logEnabled "consumePurchase called!"
    ++ [.exec success fail "InAppBillingPlugin" "consumePurchase" [productId]]

/-- Model of `InAppBilling.prototype.getAvailableProducts` (lines 237-240). -/
def getAvailableProducts (st : IABState) (success fail : Nat) : List Effect :=
  emitLog st.logEnabled "getAvailableProducts called!"
    ++ [.exec success fail "InAppBillingPlugin" "getAvailableProducts" [.vstr "null"]]

/-- Model of `InAppBilling.prototype.getProductDetails` (lines 257-278).
Accessing `.length` on `undefined` throws, modelled by `.error`. -/
def getProductDetails (st : IABState) (success fail : Nat)
    (productIds : ProductIdsArg) : Except String (List Effect) :=
  let l1 := emitLog st.logEnabled "getProductDetails called!"
  match productIds with
  | .undefined => .error "TypeError: Cannot read property length of undefined"
  | p =>
      match normalizeIds p with
      | none => .error "unreachable"
      | some ids =>
          match ids with
          | [] => .ok l1
          | x :: _ =>
              if x.isString then
                .ok (l1
                  ++ emitLog st.logEnabled ("load " ++ JSVal.stringify (.varr ids))
                  ++ [.exec success fail "InAppBillingPlugin" "getProductDetails"
                        [.varr ids]])
              else
                let msg := "invalid productIds: " ++ JSVal.stringify (.varr ids)
                .ok (l1 ++ emitLog st.logEnabled msg ++ [.invokeFail fail msg])

/-- Error codes base (line 49). -/
def ERROR_CODES_BASE : Nat := 4983497

/-- Line 51. -/
def ERR_SETUP : Nat := ERROR_CODES_BASE + 1

/-- Line 52. -/
def ERR_LOAD : Nat := ERROR_CODES_BASE + 2

/-- Line 53. -/
def ERR_PURCHASE : Nat := ERROR_CODES_BASE + 3

/-- Line 54. -/
def ERR_LOAD_RECEIPTS : Nat := ERROR_CODES_BASE + 4

/-- Line 55. -/
def ERR_CLIENT_INVALID : Nat := ERROR_CODES_BASE + 5

/-- Line 56. -/
def ERR_PAYMENT_CANCELLED : Nat := ERROR_CODES_BASE + 6

/-- Line 57. -/
def ERR_PAYMENT_INVALID : Nat := ERROR_CODES_BASE + 7

/-- Line 58. -/
def ERR_PAYMENT_NOT_ALLOWED : Nat := ERROR_CODES_BASE + 8

/-- Line 59. -/
def ERR_UNKNOWN : Nat := ERROR_CODES_BASE + 10

/-- Line 60. -/
def ERR_LOAD_INVENTORY : Nat := ERROR_CODES_BASE + 11

/-- Line 61. -/
def ERR_HELPER_DISPOSED : Nat := ERROR_CODES_BASE + 12

/-- Line 62. -/
def ERR_NOT_INITIALIZED : Nat := ERROR_CODES_BASE + 13

/-- Line 63. -/
def ERR_INVENTORY_NOT_LOADED : Nat := ERROR_CODES_BASE + 14

/-- Line 64. -/
def ERR_PURCHASE_FAILED : Nat := ERROR_CODES_BASE + 15

/-- Line 65. -/
def ERR_JSON_CONVERSION_FAILED : Nat := ERROR_CODES_BASE + 16

/-- Line 66. -/
def ERR_INVALID_PURCHASE_PAYLOAD : Nat := ERROR_CODES_BASE + 17

/-- Line 67. -/
def ERR_SUBSCRIPTION_NOT_SUPPORTED : Nat := ERROR_CODES_BASE + 18

/-- Line 68. -/
def ERR_CONSUME_NOT_OWNED_ITEM : Nat := ERROR_CODES_BASE + 19

/-- Line 69. -/
def ERR_CONSUMPTION_FAILED : Nat := ERROR_CODES_BASE + 20

/-- The nineteen error-code constants in source order. -/
def errorCodes : List Nat :=
  [ERR_SETUP, ERR_LOAD, ERR_PURCHASE, ERR_LOAD_RECEIPTS, ERR_CLIENT_INVALID,
   ERR_PAYMENT_CANCELLED, ERR_PAYMENT_INVALID, ERR_PAYMENT_NOT_ALLOWED,
   ERR_UNKNOWN, ERR_LOAD_INVENTORY, ERR_HELPER_DISPOSED, ERR_NOT_INITIALIZED,
   ERR_INVENTORY_NOT_LOADED, ERR_PURCHASE_FAILED, ERR_JSON_CONVERSION_FAILED,
   ERR_INVALID_PURCHASE_PAYLOAD, ERR_SUBSCRIPTION_NOT_SUPPORTED,
   ERR_CONSUME_NOT_OWNED_ITEM, ERR_CONSUMPTION_FAILED]

/-- Filtering for bridge calls distributes over trace concatenation. -/
theorem execsOf_append (l1 l2 : List Effect) :
    execsOf (l1 ++ l2) = execsOf l1 ++ execsOf l2 := by
  simp [execsOf]

/-- A `this.log` call issues no bridge call, whether enabled or not. -/
theorem execsOf_emitLog (b : Bool) (msg : String) :
    execsOf (emitLog b msg) = [] := by
  cases b <;> rfl

/-- Filtering for callback invocations distributes over concatenation. -/
theorem callbacksOf_append (l1 l2 : List Effect) :
    callbacksOf (l1 ++ l2) = callbacksOf l1 ++ callbacksOf l2 := by
  simp [callbacksOf]

/-- A `this.log` call invokes no callback, whether enabled or not. -/
theorem callbacksOf_emitLog (b : Bool) (msg : String) :
    callbacksOf (emitLog b msg) = [] := by
  cases b <;> rfl

/-- A bridge-call effect survives the bridge-call filter. -/
theorem execsOf_exec (s f : Nat) (p a : String) (args : List JSVal) :
    execsOf [Effect.exec s f p a args] = [Effect.exec s f p a args] := rfl

/-- A failure-callback invocation is not a bridge call. -/
theorem execsOf_invokeFail (f : Nat) (m : String) :
    execsOf [Effect.invokeFail f m] = [] := rfl

/-- A bridge call is not a synchronous callback invocation. -/
theorem callbacksOf_exec (s f : Nat) (p a : String) (args : List JSVal) :
    callbacksOf [Effect.exec s f p a args] = [] := rfl

/-- A failure-callback invocation survives the callback filter. -/
theorem callbacksOf_invokeFail (f : Nat) (m : String) :
    callbacksOf [Effect.invokeFail f m] = [Effect.invokeFail f m] := rfl

/-- The trace of `init` is `initEffects` at the post-replacement logger
state and the normalized `productIds`. -/
theorem init_snd (st : IABState) (options : OptionsArg) (success fail : Nat)
    (productIds : ProductIdsArg) :
    (init st options success fail productIds).2 =
      initEffects (init st options success fail productIds).1.logEnabled
        success fail (normalizeIds productIds) := rfl

/-- Trace of `init` when `productIds` was absent. -/
theorem initEffects_none (b : Bool) (success fail : Nat) :
    initEffects b success fail none =
      emitLog b "setup ok"
        ++ [.exec success fail "InAppBillingPlugin" "init" []] := rfl

/-- Trace of `init` when `productIds` normalized to the empty sequence. -/
theorem initEffects_nil (b : Bool) (success fail : Nat) :
    initEffects b success fail (some []) =
      emitLog b "setup ok"
        ++ [.exec success fail "InAppBillingPlugin" "init" []] := rfl

/-- Trace of `init` on a non-empty sequence with a string first element. -/
theorem initEffects_valid (b : Bool) (success fail : Nat) (x : JSVal)
    (rest : List JSVal) (hx : x.isString = true) :
    initEffects b success fail (some (x :: rest)) =
      emitLog b "setup ok"
        ++ emitLog b ("load " ++ JSVal.stringify (.varr (x :: rest)))
        ++ [.exec success fail "InAppBillingPlugin" "init"
              [.varr (x :: rest)]] := by
  simp [initEffects, hx]

/-- Trace of `init` on a non-empty sequence with a non-string first
element. -/
theorem initEffects_invalid (b : Bool) (success fail : Nat) (x : JSVal)
    (rest : List JSVal) (hx : x.isString = false) :
    initEffects b success fail (some (x :: rest)) =
      emitLog b "setup ok"
        ++ emitLog b
            ("invalid productIds: " ++ JSVal.stringify (.varr (x :: rest)))
        ++ [.invokeFail fail
            ("invalid productIds: " ++ JSVal.stringify (.varr (x :: rest)))]
    := by
  simp [initEffects, hx]

/-- Trace of `getProductDetails` on the empty sequence. -/
theorem getProductDetails_arr_nil (st : IABState) (success fail : Nat) :
    getProductDetails st success fail (.arr []) =
      .ok (emitLog st.logEnabled "getProductDetails called!") := rfl

/-- Trace of `getProductDetails` on a non-empty sequence with a string
first element. -/
theorem getProductDetails_arr_valid (st : IABState) (success fail : Nat)
    (x : JSVal) (rest : List JSVal) (hx : x.isString = true) :
    getProductDetails st success fail (.arr (x :: rest)) =
      .ok (emitLog st.logEnabled "getProductDetails called!"
        ++ emitLog st.logEnabled
            ("load " ++ JSVal.stringify (.varr (x :: rest)))
        ++ [.exec success fail "InAppBillingPlugin" "getProductDetails"
              [.varr (x :: rest)]]) := by
  simp [getProductDetails, normalizeIds, hx]

/-- Trace of `getProductDetails` on a non-empty sequence with a non-string
first element. -/
theorem getProductDetails_arr_invalid (st : IABState) (success fail : Nat)
    (x : JSVal) (rest : List JSVal) (hx : x.isString = false) :
    getProductDetails st success fail (.arr (x :: rest)) =
      .ok (emitLog st.logEnabled "getProductDetails called!"
        ++ emitLog st.logEnabled
            ("invalid productIds: " ++ JSVal.stringify (.varr (x :: rest)))
        ++ [.invokeFail fail
            ("invalid productIds: " ++ JSVal.stringify (.varr (x :: rest)))])
    := by
  simp [getProductDetails, normalizeIds, hx]

/-- C1: the spec claims that `showLog: false` at initialization makes `log`
a no-op so that zero diagnostic output follows; in the code,
`options.showLog || true` evaluates to `true` whenever `showLog` is `false`
(falsy), so the no-op replacement on line 107 never runs: the stored option
is `true`, the logger stays enabled, and the same `init` call already
prints `setup ok`. -/
theorem init_showLog_false_still_logs :
    (init initialState (.obj (.vbool false)) 0 1 .undefined).1.logEnabled = true ∧
    (init initialState (.obj (.vbool false)) 0 1 .undefined).1.showLogOpt =
      .vbool true ∧
    (init initialState (.obj (.vbool false)) 0 1 .undefined).2 =
      [Effect.consoleLog "InAppBilling[js]: setup ok",
       Effect.exec 0 1 "InAppBillingPlugin" "init" []] :=
  ⟨rfl, rfl, rfl⟩

/-- C2: whenever `productIds` normalizes to a non-empty list whose first
element is not a string, both `init` and `getProductDetails` issue no
bridge call and synchronously invoke the failure callback with a string
containing the JSON serialization of the offending input. -/
theorem invalid_ids_fail_no_exec (st : IABState) (options : OptionsArg)
    (success fail : Nat) (productIds : ProductIdsArg) (x : JSVal)
    (rest : List JSVal)
    (hnorm : normalizeIds productIds = some (x :: rest))
    (hx : x.isString = false) :
    (execsOf (init st options success fail productIds).2 = [] ∧
      ∃ a b, Effect.invokeFail fail
          (a ++ JSVal.stringify (.varr (x :: rest)) ++ b)
        ∈ (init st options success fail productIds).2) ∧
    (∃ tr, getProductDetails st success fail productIds = .ok tr ∧
      execsOf tr = [] ∧
      ∃ a b, Effect.invokeFail fail
          (a ++ JSVal.stringify (.varr (x :: rest)) ++ b) ∈ tr) := by
  cases productIds with
  | undefined => simp [normalizeIds] at hnorm
  | str s =>
      simp only [normalizeIds, Option.some.injEq, List.cons.injEq]
        at hnorm
      rw [← hnorm.1] at hx
      simp [JSVal.isString] at hx
  | arr xs =>
      simp only [normalizeIds, Option.some.injEq] at hnorm
      subst hnorm
      refine ⟨⟨?_, ?_⟩, ?_⟩
      · rw [init_snd, show normalizeIds (ProductIdsArg.arr (x :: rest)) =
            some (x :: rest) from rfl,
          initEffects_invalid _ success fail x rest hx]
        simp [execsOf_append, execsOf_emitLog, execsOf_invokeFail]
      · refine ⟨"invalid productIds: ", "", ?_⟩
        rw [init_snd, show normalizeIds (ProductIdsArg.arr (x :: rest)) =
            some (x :: rest) from rfl,
          initEffects_invalid _ success fail x rest hx]
        simp [String.append_empty]
      · refine ⟨_, getProductDetails_arr_invalid st success fail x rest hx,
          ?_, ?_⟩
        · simp [execsOf_append, execsOf_emitLog, execsOf_invokeFail]
        · refine ⟨"invalid productIds: ", "", ?_⟩
          simp [String.append_empty]

/-- Witness for C2 at the spec's example input `[42]`. -/
theorem invalid_ids_fail_no_exec_witness :
    normalizeIds (.arr [.vnum 42]) = some [JSVal.vnum 42] ∧
    (JSVal.vnum 42).isString = false ∧
    ((execsOf (init initialState .undefined 0 1 (.arr [.vnum 42])).2 = [] ∧
      ∃ a b, Effect.invokeFail 1
          (a ++ JSVal.stringify (.varr [.vnum 42]) ++ b)
        ∈ (init initialState .undefined 0 1 (.arr [.vnum 42])).2) ∧
    (∃ tr, getProductDetails initialState 0 1 (.arr [.vnum 42]) = .ok tr ∧
      execsOf tr = [] ∧
      ∃ a b, Effect.invokeFail 1
          (a ++ JSVal.stringify (.varr [.vnum 42]) ++ b) ∈ tr)) :=
  ⟨rfl, rfl,
    invalid_ids_fail_no_exec initialState .undefined 0 1 (.arr [.vnum 42])
      (.vnum 42) [] rfl rfl⟩

/-- C3 counterexample: `getProductDetails(success, fail, "")` does NOT
return without a bridge call: the empty string is normalized to `[""]`,
which is non-empty with a string first element, so the bridge call is
issued with `[[""]]`. -/
theorem getProductDetails_empty_string_execs :
    getProductDetails initialState 0 1 (.str "") =
      .ok [Effect.consoleLog "InAppBilling[js]: getProductDetails called!",
           Effect.consoleLog "InAppBilling[js]: load [\"\"]",
           Effect.exec 0 1 "InAppBillingPlugin" "getProductDetails"
             [.varr [.vstr ""]]] := rfl

/-- C3 (amended): `getProductDetails` on an empty sequence returns with no
bridge call and no callback invocation; on an empty string it invokes no
callback either, but — the string being normalized to the one-element
sequence `[""]` — it does issue the bridge call with `[[""]]`. -/
theorem getProductDetails_empty_cases (st : IABState) (success fail : Nat) :
    (∃ tr, getProductDetails st success fail (.arr []) = .ok tr ∧
      execsOf tr = [] ∧ callbacksOf tr = []) ∧
    (∃ tr, getProductDetails st success fail (.str "") = .ok tr ∧
      callbacksOf tr = [] ∧
      execsOf tr = [Effect.exec success fail "InAppBillingPlugin"
        "getProductDetails" [.varr [.vstr ""]]]) := by
  constructor
  · exact ⟨_, rfl, execsOf_emitLog _ _, callbacksOf_emitLog _ _⟩
  · refine ⟨_,
      getProductDetails_arr_valid st success fail (.vstr "") [] rfl,
      ?_, ?_⟩
    · simp [callbacksOf_append, callbacksOf_emitLog, callbacksOf_exec]
    · simp [execsOf_append, execsOf_emitLog, execsOf_exec]

/-- C4: a bare string `productIds` argument behaves in `init` and in
`getProductDetails` exactly like the one-element sequence containing it. -/
theorem string_normalized_to_singleton (st : IABState) (options : OptionsArg)
    (success fail : Nat) (s : String) :
    init st options success fail (.str s) =
      init st options success fail (.arr [.vstr s]) ∧
    getProductDetails st success fail (.str s) =
      getProductDetails st success fail (.arr [.vstr s]) :=
  ⟨rfl, rfl⟩

/-- C5: every `ERR_*` constant equals `4983497` plus its documented offset,
offset `+9` is absent, and the nineteen constants are pairwise distinct. -/
theorem errorCodes_values_distinct :
    ERR_SETUP = 4983497 + 1 ∧ ERR_LOAD = 4983497 + 2 ∧
    ERR_PURCHASE = 4983497 + 3 ∧ ERR_LOAD_RECEIPTS = 4983497 + 4 ∧
    ERR_CLIENT_INVALID = 4983497 + 5 ∧ ERR_PAYMENT_CANCELLED = 4983497 + 6 ∧
    ERR_PAYMENT_INVALID = 4983497 + 7 ∧
    ERR_PAYMENT_NOT_ALLOWED = 4983497 + 8 ∧ ERR_UNKNOWN = 4983497 + 10 ∧
    ERR_LOAD_INVENTORY = 4983497 + 11 ∧ ERR_HELPER_DISPOSED = 4983497 + 12 ∧
    ERR_NOT_INITIALIZED = 4983497 + 13 ∧
    ERR_INVENTORY_NOT_LOADED = 4983497 + 14 ∧
    ERR_PURCHASE_FAILED = 4983497 + 15 ∧
    ERR_JSON_CONVERSION_FAILED = 4983497 + 16 ∧
    ERR_INVALID_PURCHASE_PAYLOAD = 4983497 + 17 ∧
    ERR_SUBSCRIPTION_NOT_SUPPORTED = 4983497 + 18 ∧
    ERR_CONSUME_NOT_OWNED_ITEM = 4983497 + 19 ∧
    ERR_CONSUMPTION_FAILED = 4983497 + 20 ∧
    (4983497 + 9) ∉ errorCodes ∧ errorCodes.Nodup := by
  decide

/-- C6: `init` forwards action `init` with the normalized sequence wrapped
as the single element of the argument list when a valid non-empty sequence
was supplied, and with an empty argument list when `productIds` was absent
or normalized to an empty sequence. -/
theorem init_forwarding (st : IABState) (options : OptionsArg)
    (success fail : Nat) (productIds : ProductIdsArg) :
    (∀ x rest, normalizeIds productIds = some (x :: rest) →
      x.isString = true →
      execsOf (init st options success fail productIds).2 =
        [Effect.exec success fail "InAppBillingPlugin" "init"
          [.varr (x :: rest)]]) ∧
    (normalizeIds productIds = none ∨ normalizeIds productIds = some [] →
      execsOf (init st options success fail productIds).2 =
        [Effect.exec success fail "InAppBillingPlugin" "init" []]) := by
  constructor
  · intro x rest hnorm hx
    rw [init_snd, hnorm, initEffects_valid _ success fail x rest hx]
    simp [execsOf_append, execsOf_emitLog, execsOf_exec]
  · rintro (hnorm | hnorm)
    · rw [init_snd, hnorm, initEffects_none]
      simp [execsOf_append, execsOf_emitLog, execsOf_exec]
    · rw [init_snd, hnorm, initEffects_nil]
      simp [execsOf_append, execsOf_emitLog, execsOf_exec]

/-- Witness for C6 at the spec's example, an `init` call with `showLog`
set to `false` and the bare string `"sku1"`, and at an absent
`productIds`. -/
theorem init_forwarding_witness :
    (normalizeIds (.str "sku1") = some [JSVal.vstr "sku1"] ∧
      (JSVal.vstr "sku1").isString = true ∧
      execsOf (init initialState (.obj (.vbool false)) 0 1 (.str "sku1")).2 =
        [Effect.exec 0 1 "InAppBillingPlugin" "init"
          [.varr [.vstr "sku1"]]]) ∧
    (normalizeIds .undefined = none ∧
      execsOf (init initialState (.obj (.vbool false)) 0 1 .undefined).2 =
        [Effect.exec 0 1 "InAppBillingPlugin" "init" []]) :=
  ⟨⟨rfl, rfl,
      (init_forwarding initialState (.obj (.vbool false)) 0 1
        (.str "sku1")).1 (.vstr "sku1") [] rfl rfl⟩,
    ⟨rfl,
      (init_forwarding initialState (.obj (.vbool false)) 0 1 .undefined).2
        (Or.inl rfl)⟩⟩

/-- C7: `buy`, `subscribe` and `consumePurchase` validate nothing and each
issues exactly one bridge call to plugin `InAppBillingPlugin` with its
action name and `[productId]`, passing the caller's callbacks through
unchanged; no callback is invoked synchronously. -/
theorem buy_subscribe_consume_forward (st : IABState) (success fail : Nat)
    (productId : JSVal) :
    (execsOf (buy st success fail productId) =
      [Effect.exec success fail "InAppBillingPlugin" "buy" [productId]] ∧
      callbacksOf (buy st success fail productId) = []) ∧
    (execsOf (subscribe st success fail productId) =
      [Effect.exec success fail "InAppBillingPlugin" "subscribe"
        [productId]] ∧
      callbacksOf (subscribe st success fail productId) = []) ∧
    (execsOf (consumePurchase st success fail productId) =
      [Effect.exec success fail "InAppBillingPlugin" "consumePurchase"
        [productId]] ∧
      callbacksOf (consumePurchase st success fail productId) = []) := by
  refine ⟨⟨?_, ?_⟩, ⟨?_, ?_⟩, ⟨?_, ?_⟩⟩ <;>
    simp [buy, subscribe, consumePurchase, execsOf_append, execsOf_emitLog,
      execsOf_exec, callbacksOf_append, callbacksOf_emitLog,
      callbacksOf_exec]

/-- C8: `getPurchases` and `getAvailableProducts` take no operation-specific
input, validate nothing, and each issues exactly one bridge call with its
action name and the single literal placeholder argument `"null"`; no
callback is invoked synchronously. -/
theorem queries_forward_placeholder (st : IABState) (success fail : Nat) :
    (execsOf (getPurchases st success fail) =
      [Effect.exec success fail "InAppBillingPlugin" "getPurchases"
        [.vstr "null"]] ∧
      callbacksOf (getPurchases st success fail) = []) ∧
    (execsOf (getAvailableProducts st success fail) =
      [Effect.exec success fail "InAppBillingPlugin" "getAvailableProducts"
        [.vstr "null"]] ∧
      callbacksOf (getAvailableProducts st success fail) = []) := by
  refine ⟨⟨?_, ?_⟩, ⟨?_, ?_⟩⟩ <;>
    simp [getPurchases, getAvailableProducts, execsOf_append,
      execsOf_emitLog, execsOf_exec, callbacksOf_append,
      callbacksOf_emitLog, callbacksOf_exec]

/-- C9: calling `init` with an absent or null `options` argument behaves
exactly like passing an empty options object, and the stored `showLog`
resolves to `true`. -/
theorem init_options_default (st : IABState) (success fail : Nat)
    (productIds : ProductIdsArg) :
    init st .undefined success fail productIds =
      init st (.obj .vundefined) success fail productIds ∧
    init st .null success fail productIds =
      init st (.obj .vundefined) success fail productIds ∧
    (init st .undefined success fail productIds).1.showLogOpt = .vbool true ∧
    (init st .undefined success fail productIds).1.logEnabled = st.logEnabled :=
  ⟨rfl, rfl, rfl, rfl⟩

/-- C10: validation looks only at the first element: any non-empty sequence
whose first element is a string is forwarded unchanged by `init` and by
`getProductDetails`, whatever the later elements are. -/
theorem validation_first_element_only (st : IABState) (options : OptionsArg)
    (success fail : Nat) (x : JSVal) (rest : List JSVal)
    (hx : x.isString = true) :
    execsOf (init st options success fail (.arr (x :: rest))).2 =
      [Effect.exec success fail "InAppBillingPlugin" "init"
        [.varr (x :: rest)]] ∧
    (∃ tr, getProductDetails st success fail (.arr (x :: rest)) = .ok tr ∧
      execsOf tr = [Effect.exec success fail "InAppBillingPlugin"
        "getProductDetails" [.varr (x :: rest)]] ∧
      callbacksOf tr = []) := by
  constructor
  · rw [init_snd, show normalizeIds (ProductIdsArg.arr (x :: rest)) =
        some (x :: rest) from rfl,
      initEffects_valid _ success fail x rest hx]
    simp [execsOf_append, execsOf_emitLog, execsOf_exec]
  · refine ⟨_, getProductDetails_arr_valid st success fail x rest hx,
      ?_, ?_⟩
    · simp [execsOf_append, execsOf_emitLog, execsOf_exec]
    · simp [callbacksOf_append, callbacksOf_emitLog, callbacksOf_exec]

/-- Witness for C10 with a non-string later element, `["a", 7]`. -/
theorem validation_first_element_only_witness :
    (JSVal.vstr "a").isString = true ∧
    (execsOf (init initialState .undefined 0 1
        (.arr [.vstr "a", .vnum 7])).2 =
      [Effect.exec 0 1 "InAppBillingPlugin" "init"
        [.varr [.vstr "a", .vnum 7]]] ∧
    (∃ tr, getProductDetails initialState 0 1
        (.arr [.vstr "a", .vnum 7]) = .ok tr ∧
      execsOf tr = [Effect.exec 0 1 "InAppBillingPlugin"
        "getProductDetails" [.varr [.vstr "a", .vnum 7]]] ∧
      callbacksOf tr = [])) :=
  ⟨rfl,
    validation_first_element_only initialState .undefined 0 1 (.vstr "a")
      [.vnum 7] rfl⟩

end InAppBilling
